import Mathlib

/-!
Shallow embedding of the escher renderer's scene/cache hierarchy
(src/scene.rs, src/camera.rs) and frame loop (src/engine.rs).
-/

namespace Escher

/-- A 3-component vector of rationals (embedding `nalgebra::Vector3<f32>`). -/
structure Vec3 where
  x : ℚ
  y : ℚ
  z : ℚ
deriving DecidableEq, Repr

/-- A 2-component vector of rationals (embedding `nalgebra::Vector2<f32>`). -/
structure Vec2 where
  x : ℚ
  y : ℚ
deriving DecidableEq, Repr

/-- A homogeneous 4-component vector (embedding `nalgebra::Vector4<f32>`). -/
structure Vec4 where
  x : ℚ
  y : ℚ
  z : ℚ
  w : ℚ
deriving DecidableEq, Repr

/-- A 4x4 matrix in row-major entry naming: `mRC` is row R, column C
(embedding `nalgebra::Matrix4<f32>`). -/
structure Mat4 where
  m00 : ℚ
  m01 : ℚ
  m02 : ℚ
  m03 : ℚ
  m10 : ℚ
  m11 : ℚ
  m12 : ℚ
  m13 : ℚ
  m20 : ℚ
  m21 : ℚ
  m22 : ℚ
  m23 : ℚ
  m30 : ℚ
  m31 : ℚ
  m32 : ℚ
  m33 : ℚ
deriving DecidableEq, Repr

namespace Mat4

/-- Matrix product (row i of `a` dotted with column j of `b`). -/
def mul (a b : Mat4) : Mat4 where
  m00 := a.m00 * b.m00 + a.m01 * b.m10 + a.m02 * b.m20 + a.m03 * b.m30
  m01 := a.m00 * b.m01 + a.m01 * b.m11 + a.m02 * b.m21 + a.m03 * b.m31
  m02 := a.m00 * b.m02 + a.m01 * b.m12 + a.m02 * b.m22 + a.m03 * b.m32
  m03 := a.m00 * b.m03 + a.m01 * b.m13 + a.m02 * b.m23 + a.m03 * b.m33
  m10 := a.m10 * b.m00 + a.m11 * b.m10 + a.m12 * b.m20 + a.m13 * b.m30
  m11 := a.m10 * b.m01 + a.m11 * b.m11 + a.m12 * b.m21 + a.m13 * b.m31
  m12 := a.m10 * b.m02 + a.m11 * b.m12 + a.m12 * b.m22 + a.m13 * b.m32
  m13 := a.m10 * b.m03 + a.m11 * b.m13 + a.m12 * b.m23 + a.m13 * b.m33
  m20 := a.m20 * b.m00 + a.m21 * b.m10 + a.m22 * b.m20 + a.m23 * b.m30
  m21 := a.m20 * b.m01 + a.m21 * b.m11 + a.m22 * b.m21 + a.m23 * b.m31
  m22 := a.m20 * b.m02 + a.m21 * b.m12 + a.m22 * b.m22 + a.m23 * b.m32
  m23 := a.m20 * b.m03 + a.m21 * b.m13 + a.m22 * b.m23 + a.m23 * b.m33
  m30 := a.m30 * b.m00 + a.m31 * b.m10 + a.m32 * b.m20 + a.m33 * b.m30
  m31 := a.m30 * b.m01 + a.m31 * b.m11 + a.m32 * b.m21 + a.m33 * b.m31
  m32 := a.m30 * b.m02 + a.m31 * b.m12 + a.m32 * b.m22 + a.m33 * b.m32
  m33 := a.m30 * b.m03 + a.m31 * b.m13 + a.m32 * b.m23 + a.m33 * b.m33

/-- Apply the matrix to a homogeneous 4-vector. -/
def mulVec (a : Mat4) (v : Vec4) : Vec4 where
  x := a.m00 * v.x + a.m01 * v.y + a.m02 * v.z + a.m03 * v.w
  y := a.m10 * v.x + a.m11 * v.y + a.m12 * v.z + a.m13 * v.w
  z := a.m20 * v.x + a.m21 * v.y + a.m22 * v.z + a.m23 * v.w
  w := a.m30 * v.x + a.m31 * v.y + a.m32 * v.z + a.m33 * v.w

/-- The 4x4 identity matrix (`Matrix4::identity()`). -/
def identity : Mat4 where
  m00 := 1
  m01 := 0
  m02 := 0
  m03 := 0
  m10 := 0
  m11 := 1
  m12 := 0
  m13 := 0
  m20 := 0
  m21 := 0
  m22 := 1
  m23 := 0
  m30 := 0
  m31 := 0
  m32 := 0
  m33 := 1

/-- Homogeneous translation matrix (`Matrix4::new_translation`). -/
def translation (t : Vec3) : Mat4 :=
  { identity with m03 := t.x, m13 := t.y, m23 := t.z }

/-- Homogeneous rotation about the X axis, given the cosine `c` and sine `s`
of the rotation angle (`Matrix4::new_rotation` on an axis-angle vector
`(θ, 0, 0)`). -/
def rotX (c s : ℚ) : Mat4 :=
  { identity with m11 := c, m12 := -s, m21 := s, m22 := c }

/-- Homogeneous rotation about the Y axis, given cosine and sine
(`Matrix4::new_rotation` on `(0, θ, 0)`). -/
def rotY (c s : ℚ) : Mat4 :=
  { identity with m00 := c, m02 := s, m20 := -s, m22 := c }

/-- Homogeneous rotation about the Z axis, given cosine and sine
(`Matrix4::new_rotation` on `(0, 0, θ)`). -/
def rotZ (c s : ℚ) : Mat4 :=
  { identity with m00 := c, m01 := -s, m10 := s, m11 := c }

/-- Homogeneous uniform scaling matrix (`Matrix4::new_scaling`). -/
def scaling (k : ℚ) : Mat4 :=
  { identity with m00 := k, m11 := k, m22 := k }

end Mat4

/-- The baked transform wrapper stored per instance (`struct Model` in
src/scene.rs). -/
structure Model where
  model : Mat4
deriving DecidableEq, Repr

/-- `Model::default()`: the identity matrix. -/
def Model.default : Model := ⟨Mat4.identity⟩

/-- A named transform (position, orientation angles, uniform scale) plus its
baked model matrix (`struct Instance` in src/scene.rs). -/
structure Instance where
  position : Vec3
  angle : Vec3
  scale : ℚ
  model : Model
deriving DecidableEq, Repr

/-- The model matrix recomputed by `Instance::update`:
`Matrix4::new_translation(position) * new_rotation((angle.x,0,0)) *
new_rotation((0,angle.y,0)) * new_rotation((0,0,angle.z)) *
new_scaling(scale)`. The trigonometric functions used by the axis-angle
rotations are abstracted as the parameters `cosf` and `sinf`; the claims
only evaluate them at angle 0. -/
def computeModel (cosf sinf : ℚ → ℚ) (position angle : Vec3) (scale : ℚ) : Mat4 :=
  Mat4.mul
    (Mat4.mul
      (Mat4.mul
        (Mat4.mul (Mat4.translation position) (Mat4.rotX (cosf angle.x) (sinf angle.x)))
        (Mat4.rotY (cosf angle.y) (sinf angle.y)))
      (Mat4.rotZ (cosf angle.z) (sinf angle.z)))
    (Mat4.scaling scale)

/-- `Instance::update`: apply the mutator `f`, then eagerly recompute the
baked model matrix from the updated fields. -/
def Instance.update (cosf sinf : ℚ → ℚ) (f : Instance → Instance) (i : Instance) : Instance :=
  let i' := f i
  { i' with model := ⟨computeModel cosf sinf i'.position i'.angle i'.scale⟩ }

/-- `Instance::default()`: zero position and angles, scale 1, default
(identity) model matrix. -/
def Instance.default : Instance :=
  { position := ⟨0, 0, 0⟩, angle := ⟨0, 0, 0⟩, scale := 1, model := Model.default }

/-- Insert-or-replace into a name-keyed registry (embedding
`HashMap::insert`, which replaces any previous entry for the key). -/
def upsert {α : Type} (l : List (String × α)) (k : String) (v : α) : List (String × α) :=
  match l with
  | [] => [(k, v)]
  | (k', v') :: t => if k' = k then (k, v) :: t else (k', v') :: upsert t k v

/-- Lookup by name in a registry (embedding `HashMap::get_mut`; `none`
models the `unwrap` panic path at call sites). -/
def lookupKey {α : Type} (l : List (String × α)) (k : String) : Option α :=
  match l with
  | [] => none
  | (k', v) :: t => if k' = k then some v else lookupKey t k

/-- A mesh vertex (`struct Vertex` in src/mesh.rs). -/
structure Vertex where
  coord : Vec3
  normal : Vec3
  tex_coord : Vec2
deriving DecidableEq, Repr

/-- Geometry handed to an object at creation (`struct Mesh` in
src/mesh.rs). -/
structure Mesh where
  vertices : List Vertex
  indices : List Nat
deriving DecidableEq, Repr

/-- View/projection configuration (`struct CameraConfiguration` in
src/camera.rs). -/
structure CameraConfiguration where
  position : Vec3
  angle : Vec3
  aspect : ℚ
  fov_y : ℚ
  z_near : ℚ
  z_far : ℚ
deriving DecidableEq, Repr

/-- `CameraConfiguration::default()`. -/
def CameraConfiguration.default : CameraConfiguration :=
  { position := ⟨0, 0, 0⟩, angle := ⟨0, 0, 0⟩
    aspect := 1, fov_y := 45, z_near := 1 / 100, z_far := 100 }

/-- The serialized uniform payload (`struct CameraData` in src/camera.rs).
`CameraData::new` is a pure function of the configuration; no claim
inspects the view/projection formulas, so the payload is recorded as the
configuration it was serialized from. -/
structure CameraData where
  builtFrom : CameraConfiguration
deriving DecidableEq, Repr

/-- The camera with its cached uniform subbuffer (`struct Camera` in
src/camera.rs). -/
structure Camera where
  configuration : CameraConfiguration
  subbuffer : Option CameraData
deriving DecidableEq, Repr

/-- `Camera::new`: default configuration, no cached subbuffer. -/
def Camera.new : Camera :=
  { configuration := CameraConfiguration.default, subbuffer := none }

/-- `Camera::invalidate`: drop the cached subbuffer. -/
def Camera.invalidate (c : Camera) : Camera := { c with subbuffer := none }

/-- `Camera::subbuffer`: build the payload from the configuration if the
cache is empty, then return the cached payload. -/
def Camera.subbufferFn (c : Camera) : Camera × CameraData :=
  match c.subbuffer with
  | some b => (c, b)
  | none =>
      let d : CameraData := ⟨c.configuration⟩
      ({ c with subbuffer := some d }, d)

/-- `Camera::update`: invalidate the cached subbuffer, then apply the
mutator to the configuration. -/
def Camera.update (f : CameraConfiguration → CameraConfiguration) (c : Camera) : Camera :=
  { c with subbuffer := none, configuration := f c.configuration }

/-- A graphics pipeline as built by `Group::create_pipeline`, identified by
its inputs (shader modules, render pass, viewport are opaque handles). -/
structure PipelineDesc where
  vertex_shader : Nat
  fragment_shader : Nat
  render_pass : Nat
  viewport : Nat
deriving DecidableEq, Repr

/-- One recorded secondary command buffer (the body of
`Object::command_buffer`): pipeline bind, vertex/instance/index buffer
binds, camera descriptor set, and the
`draw_indexed(index_buffer.len(), instances.len(), 0, 0, 0)` call. -/
structure SecondaryCmdBuffer where
  pipeline : PipelineDesc
  cameraBuffer : CameraData
  instanceData : List Instance
  indexCount : Nat
  instanceCount : Nat
deriving DecidableEq, Repr

/-- A drawable object: its instance registry, geometry buffers and the
cached draw batch (`struct Object` in src/scene.rs). -/
structure Object where
  instances : List (String × Instance)
  vertex_buffer : List Vertex
  index_buffer : List Nat
  command_buffer : Option SecondaryCmdBuffer
deriving DecidableEq, Repr

/-- `Object::new`: empty instance registry, buffers from the mesh, no
cached draw batch. -/
def Object.new (mesh : Mesh) : Object :=
  { instances := [], vertex_buffer := mesh.vertices
    index_buffer := mesh.indices, command_buffer := none }

/-- `Object::invalidate`: drop the cached draw batch. -/
def Object.invalidate (o : Object) : Object := { o with command_buffer := none }

/-- `Object::command_buffer`: if the cache is empty, record a secondary
buffer (instance data from the registry values, indexed draw with
`index_buffer.len()` indices and `instances.len()` instances) and store
it; then return the cached buffer. -/
def Object.commandBufferFn (o : Object) (pipeline : PipelineDesc)
    (cameraBuffer : CameraData) : Object × SecondaryCmdBuffer :=
  match o.command_buffer with
  | some cb => (o, cb)
  | none =>
      let cb : SecondaryCmdBuffer :=
        { pipeline := pipeline
          cameraBuffer := cameraBuffer
          instanceData := o.instances.map Prod.snd
          indexCount := o.index_buffer.length
          instanceCount := o.instances.length }
      ({ o with command_buffer := some cb }, cb)

/-- `Object::get_instance`: invalidate the draw-batch cache, then look the
name up (`none` models the `unwrap` panic on an unknown name). -/
def Object.get_instance (o : Object) (id : String) : Object × Option Instance :=
  let o' := o.invalidate
  (o', lookupKey o'.instances id)

/-- `Object::create_instance`: insert (replacing any previous entry) a
default instance under the name, then go through `get_instance`. -/
def Object.create_instance (o : Object) (id : String) : Object × Option Instance :=
  Object.get_instance { o with instances := upsert o.instances id Instance.default } id
/-- `Group::create_pipeline` (the pipeline is identified by its inputs). -/
def createPipeline (vs fs rp vp : Nat) : PipelineDesc :=
  { vertex_shader := vs, fragment_shader := fs, render_pass := rp, viewport := vp }

/-- A render group: its object registry, shared pipeline and the shader
modules kept for pipeline recreation (`struct Group` in src/scene.rs).
The source `Group` keeps no batch-list cache of its own. -/
structure Group where
  objects : List (String × Object)
  pipeline : PipelineDesc
  vertex_shader : Nat
  fragment_shader : Nat
deriving DecidableEq, Repr

/-- `Group::new`: empty object registry and a freshly built pipeline. -/
def Group.new (vs fs rp vp : Nat) : Group :=
  { objects := [], pipeline := createPipeline vs fs rp vp
    vertex_shader := vs, fragment_shader := fs }

/-- `Group::recreate_pipeline`: rebuild the pipeline in place from the
stored shaders and the new render pass / viewport. -/
def Group.recreate_pipeline (g : Group) (rp vp : Nat) : Group :=
  { g with pipeline := createPipeline g.vertex_shader g.fragment_shader rp vp }

/-- The `iter_mut().map(...)` body of `Group::command_buffers`: thread each
object through `Object::command_buffer`, collecting the secondary
buffers. -/
def Group.commandBuffersAux (pipeline : PipelineDesc) (cameraBuffer : CameraData) :
    List (String × Object) → List (String × Object) × List SecondaryCmdBuffer
  | [] => ([], [])
  | (k, o) :: t =>
      let (o', cb) := o.commandBufferFn pipeline cameraBuffer
      let (t', cbs) := Group.commandBuffersAux pipeline cameraBuffer t
      ((k, o') :: t', cb :: cbs)

/-- `Group::command_buffers`: collect every object's (possibly cached)
secondary buffer; the group caches nothing itself. -/
def Group.commandBuffersFn (g : Group) (cameraBuffer : CameraData) :
    Group × List SecondaryCmdBuffer :=
  let (objs, cbs) := Group.commandBuffersAux g.pipeline cameraBuffer g.objects
  ({ g with objects := objs }, cbs)

/-- `Group::get_object`: plain registry lookup, no invalidation (`none`
models the `unwrap` panic on an unknown name). -/
def Group.get_object (g : Group) (id : String) : Group × Option Object :=
  (g, lookupKey g.objects id)

/-- `Group::create_object`: insert (replacing any previous entry) a fresh
object built from the mesh, then go through `get_object`. -/
def Group.create_object (g : Group) (id : String) (mesh : Mesh) : Group × Option Object :=
  Group.get_object { g with objects := upsert g.objects id (Object.new mesh) } id

/-- `Group::invalidate`: invalidate every object's draw-batch cache. -/
def Group.invalidate (g : Group) : Group :=
  { g with objects := g.objects.map (fun e => (e.1, e.2.invalidate)) }

/-- One recorded primary command buffer (the per-framebuffer body of
`Scene::command_buffers`): render pass begun on the framebuffer, then each
group's secondary buffers executed in registry order. -/
structure PrimaryCmdBuffer where
  framebuffer : Nat
  commands : List (List SecondaryCmdBuffer)
deriving DecidableEq, Repr

/-- The scene: group registry, the single camera, and the cached
submission list (`struct Scene` in src/scene.rs). -/
structure Scene where
  groups : List (String × Group)
  camera : Camera
  command_buffers : Option (List PrimaryCmdBuffer)
deriving DecidableEq, Repr

/-- `Scene::new`: empty group registry, fresh camera, no cached list. -/
def Scene.new : Scene :=
  { groups := [], camera := Camera.new, command_buffers := none }

/-- The inner `for (_, group) in self.groups.iter_mut()` loop of
`Scene::command_buffers`: thread every group through
`Group::command_buffers` for one framebuffer. -/
def Scene.buildGroups (cameraBuffer : CameraData) :
    List (String × Group) → List (String × Group) × List (List SecondaryCmdBuffer)
  | [] => ([], [])
  | (k, g) :: t =>
      let (g', cbs) := g.commandBuffersFn cameraBuffer
      let (t', rest) := Scene.buildGroups cameraBuffer t
      ((k, g') :: t', cbs :: rest)

/-- The `framebuffers.iter().map(...)` loop of `Scene::command_buffers`:
record one primary buffer per framebuffer, threading the group registry
(object caches built for the first framebuffer are reused for later
ones). -/
def Scene.buildFrames (cameraBuffer : CameraData) :
    List (String × Group) → List Nat → List (String × Group) × List PrimaryCmdBuffer
  | groups, [] => (groups, [])
  | groups, fb :: rest =>
      let (gs', cbs) := Scene.buildGroups cameraBuffer groups
      let (gs'', prims) := Scene.buildFrames cameraBuffer gs' rest
      (gs'', ⟨fb, cbs⟩ :: prims)

/-- `Scene::command_buffers`: on cache miss obtain the camera subbuffer and
record one primary buffer per framebuffer, caching the list; on hit return
the cached list untouched. The `Nat` in the result is ghost
instrumentation counting the scene-level rebuilds this call performed
(1 on miss, 0 on hit). -/
def Scene.commandBuffersFn (s : Scene) (framebuffers : List Nat) :
    Scene × List PrimaryCmdBuffer × Nat :=
  match s.command_buffers with
  | some v => (s, v, 0)
  | none =>
      let cs := s.camera.subbufferFn
      let gp := Scene.buildFrames cs.snd s.groups framebuffers
      ({ groups := gp.fst, camera := cs.fst, command_buffers := some gp.snd }, gp.snd, 1)

/-- `Scene::invalidate`: drop the cached submission list. -/
def Scene.invalidate (s : Scene) : Scene := { s with command_buffers := none }

/-- `Scene::invalidate_all`: drop the cached submission list, invalidate
the camera's subbuffer and every group (hence every object cache). -/
def Scene.invalidate_all (s : Scene) : Scene :=
  { command_buffers := none
    camera := s.camera.invalidate
    groups := s.groups.map (fun e => (e.1, e.2.invalidate)) }

/-- `Scene::get_group`: invalidate the submission cache, then look the name
up (`none` models the `unwrap` panic on an unknown name). -/
def Scene.get_group (s : Scene) (id : String) : Scene × Option Group :=
  let s' := s.invalidate
  (s', lookupKey s'.groups id)

/-- `Scene::get_camera`: `invalidate_all`, then hand out the camera. -/
def Scene.get_camera (s : Scene) : Scene × Camera :=
  let s' := s.invalidate_all
  (s', s'.camera)

/-- `Scene::create_group`: insert (replacing any previous entry) a fresh
group, then go through `get_group`. -/
def Scene.create_group (s : Scene) (id : String) (vs fs rp vp : Nat) :
    Scene × Option Group :=
  Scene.get_group { s with groups := upsert s.groups id (Group.new vs fs rp vp) } id

/-- `Scene::recreate_pipeline`: forward to every group. -/
def Scene.recreate_pipeline (s : Scene) (rp vp : Nat) : Scene :=
  { s with groups := s.groups.map (fun e => (e.1, e.2.recreate_pipeline rp vp)) }

/-- Result of `Swapchain::recreate` as matched in `Engine::run`
(src/engine.rs lines 100-110). -/
inductive RecreateResult
  | ok
  | extentNotSupported
  | otherError
deriving DecidableEq, Repr

/-- Result of `swapchain::acquire_next_image` as matched in `Engine::run`
(src/engine.rs lines 135-143). -/
inductive AcquireResult
  | ok (imageI : Nat) (suboptimal : Bool)
  | outOfDate
  | otherError
deriving DecidableEq, Repr

/-- Result of `then_execute(...)`, which `Engine::run` unwraps
(src/engine.rs line 172). -/
inductive ExecuteResult
  | ok
  | otherError
deriving DecidableEq, Repr

/-- Result of `then_signal_fence_and_flush` as matched in `Engine::run`
(src/engine.rs lines 183-193). -/
inductive FlushResult
  | ok
  | outOfDate
  | otherError
deriving DecidableEq, Repr

/-- The backend responses driving one `MainEventsCleared` tick of
`Engine::run`. -/
structure TickInput where
  recreate : RecreateResult
  acquire : AcquireResult
  execute : ExecuteResult
  flush : FlushResult
deriving DecidableEq, Repr

/-- The frame-loop state of `Engine::run`: the resize flags, the per-target
fence slots (`none` = empty slot, `some true` = fence not yet signalled,
`some false` = fence already waited on), the previous-fence index and the
presentation-target (swapchain image) count. The scene-side effects of the
resize branch (viewport, camera aspect, pipeline recreation) live in the
scene model and are not part of this state. -/
structure EngineState where
  windowResized : Bool
  recreateSwapchain : Bool
  fences : List (Option Bool)
  previousFenceI : Nat
  imageCount : Nat
deriving DecidableEq, Repr

/-- The loop-entry state of `Engine::run` (lines 75-80): flags clear and
`frames_in_flight = images.len()` empty fence slots. -/
def EngineState.init (imageCount : Nat) : EngineState :=
  { windowResized := false
    recreateSwapchain := false
    fences := List.replicate imageCount none
    previousFenceI := 0
    imageCount := imageCount }

/-- The acquire/submit/present part of one tick (src/engine.rs lines
135-195), after the resize branch. `none` models a `panic!`/`unwrap`
abort; `some` is the state carried to the next tick. -/
def tickAcquire (s : EngineState) (inp : TickInput) : Option EngineState :=
  match inp.acquire with
  | AcquireResult.outOfDate => some { s with recreateSwapchain := true }
  | AcquireResult.otherError => none
  | AcquireResult.ok imageI suboptimal =>
      if imageI < s.fences.length then
        let s1 := if suboptimal then { s with recreateSwapchain := true } else s
        -- wait on any outstanding fence for this target index before reuse
        let waited := s1.fences.set imageI
          (match s1.fences.getD imageI none with
           | none => none
           | some _ => some false)
        match inp.execute with
        | ExecuteResult.otherError => none
        | ExecuteResult.ok =>
            let s2 :=
              match inp.flush with
              | FlushResult.ok =>
                  { s1 with fences := waited.set imageI (some true) }
              | FlushResult.outOfDate =>
                  { s1 with recreateSwapchain := true
                            fences := waited.set imageI none }
              | FlushResult.otherError =>
                  -- `println!("{:?}", e)`: the error is printed, the loop
                  -- goes on with an emptied fence slot
                  { s1 with fences := waited.set imageI none }
            some { s2 with previousFenceI := imageI }
      else none

/-- One `MainEventsCleared` tick of `Engine::run` (src/engine.rs lines
95-196): the resize/recreate branch followed by acquire/submit/present.
The swapchain is recreated with `..self.swapchain.create_info()`, so the
image count is preserved; `fences` is never resized by the loop. -/
def tick (s : EngineState) (inp : TickInput) : Option EngineState :=
  if s.windowResized || s.recreateSwapchain then
    let s1 := { s with recreateSwapchain := false }
    match inp.recreate with
    | RecreateResult.extentNotSupported => some s1
    | RecreateResult.otherError => none
    | RecreateResult.ok =>
        let s2 := if s1.windowResized then { s1 with windowResized := false } else s1
        tickAcquire s2 inp
  else tickAcquire s inp

/-- Iterate `tick`; `none` as soon as any tick aborts. -/
def runTicks (s : EngineState) : List TickInput → Option EngineState
  | [] => some s
  | inp :: rest =>
      match tick s inp with
      | none => none
      | some s' => runTicks s' rest

/-- The list of states reached while consuming the inputs (the start state
included), cut short if a tick aborts. -/
def trace (s : EngineState) : List TickInput → List EngineState
  | [] => [s]
  | inp :: rest =>
      s :: (match tick s inp with
            | none => []
            | some s' => trace s' rest)

/-- Number of target slots currently holding an unresolved (not yet
signalled, not yet waited-on) completion fence. -/
def EngineState.pendingCount (s : EngineState) : Nat :=
  (s.fences.filter (fun f => f = some true)).length

/-! ## Concrete fixtures -/

/-- Fixture: a mesh with three indices and no vertex data. -/
def mesh0 : Mesh := { vertices := [], indices := [0, 1, 2] }

/-- Fixture: the pipeline built from handles 0. -/
def pipe0 : PipelineDesc := createPipeline 0 0 0 0

/-- Fixture: the camera payload serialized from the default
configuration. -/
def camD0 : CameraData := ⟨CameraConfiguration.default⟩

/-- Fixture: the draw batch `Object::command_buffer` records for a fresh
instance-less object built from `mesh0`. -/
def cb0 : SecondaryCmdBuffer := ((Object.new mesh0).commandBufferFn pipe0 camD0).snd

/-- Fixture: an object whose draw-batch cache has been built. -/
def objBuilt : Object := ((Object.new mesh0).commandBufferFn pipe0 camD0).fst

/-- Fixture: a group holding `objBuilt` under the name "o". -/
def grp0 : Group :=
  { objects := [("o", objBuilt)], pipeline := pipe0
    vertex_shader := 0, fragment_shader := 0 }

/-- Fixture: a group holding the built object "a" and a fresh object
"b". -/
def grp4 : Group :=
  { objects := [("a", objBuilt), ("b", Object.new mesh0)], pipeline := pipe0
    vertex_shader := 0, fragment_shader := 0 }

/-- Fixture: a scene holding `grp0` whose submission-list cache, camera
subbuffer and object cache are all built (the state right after a frame
was recorded). -/
def scn0 : Scene :=
  { groups := [("g", grp0)]
    camera := { configuration := CameraConfiguration.default, subbuffer := some camD0 }
    command_buffers := some [⟨0, [[cb0]]⟩] }

/-! ## Helper lemmas -/

/-- Inserting under a name makes lookup of that name return the new value
(last-writer-wins). -/
theorem lookupKey_upsert {α : Type} (l : List (String × α)) (k : String) (v : α) :
    lookupKey (upsert l k v) k = some v := by
  induction l with
  | nil => simp [upsert, lookupKey]
  | cons head t ih =>
      obtain ⟨k', v'⟩ := head
      by_cases hk : k' = k
      · simp [upsert, lookupKey, hk]
      · simp [upsert, lookupKey, hk, ih]

/-! ## Claims -/

/-- C8: invalidation is triggered by handle access, not by actual
mutation: every `Object::get_instance` call clears the object's draw-batch
cache, and every `Scene::get_group` / `Scene::get_camera` call clears the
scene submission cache, before any field could be changed through the
returned handle. -/
theorem getters_invalidate_unconditionally (o : Object) (idI : String)
    (s t : Scene) (idG : String) :
    (Object.get_instance o idI).fst.command_buffer = none ∧
    (Scene.get_group s idG).fst.command_buffers = none ∧
    (Scene.get_camera t).fst.command_buffers = none :=
  ⟨rfl, rfl, rfl⟩

/-- C9: the unknown-name error path is not atomic: on a name absent from
the registry, `Object::get_instance` (resp. `Scene::get_group`) still
leaves the draw-batch cache (resp. submission cache) cleared even though
the lookup fails (the `unwrap` panic, modelled by the `none` result). -/
theorem failed_lookup_after_invalidation (o : Object) (idI : String)
    (ho : lookupKey o.instances idI = none) (s : Scene) (idG : String)
    (hs : lookupKey s.groups idG = none) :
    Object.get_instance o idI = ({ o with command_buffer := none }, none) ∧
    Scene.get_group s idG = ({ s with command_buffers := none }, none) := by
  constructor
  · simp [Object.get_instance, Object.invalidate, ho]
  · simp [Scene.get_group, Scene.invalidate, hs]

/-- Witness for C9: `objBuilt` has a built cache and no instance named
"x"; `scn0` has a built submission cache and no group named "x"; the
failing calls still clear both caches. -/
theorem failed_lookup_after_invalidation_witness :
    Object.get_instance objBuilt "x" = ({ objBuilt with command_buffer := none }, none) ∧
    Scene.get_group scn0 "x" = ({ scn0 with command_buffers := none }, none) :=
  failed_lookup_after_invalidation objBuilt "x" rfl scn0 "x" rfl

/-- C5: an object whose instance registry is empty, with its cache
invalidated, builds its draw batch without failing: the indexed draw is
issued with instance count 0 (and empty instance data), and the batch is
stored in the cache. -/
theorem empty_object_zero_instance_batch (o : Object) (p : PipelineDesc)
    (cam : CameraData) (h1 : o.instances = []) (h2 : o.command_buffer = none) :
    (Object.commandBufferFn o p cam).snd.instanceCount = 0 ∧
    (Object.commandBufferFn o p cam).snd.instanceData = [] ∧
    (Object.commandBufferFn o p cam).fst.command_buffer
      = some (Object.commandBufferFn o p cam).snd := by
  simp [Object.commandBufferFn, h1, h2]

/-- Witness for C5: the fresh object built from `mesh0` has no instances
and yields a zero-instance draw batch. -/
theorem empty_object_zero_instance_batch_witness :
    ((Object.new mesh0).commandBufferFn pipe0 camD0).snd.instanceCount = 0 ∧
    ((Object.new mesh0).commandBufferFn pipe0 camD0).snd.instanceData = [] ∧
    ((Object.new mesh0).commandBufferFn pipe0 camD0).fst.command_buffer
      = some ((Object.new mesh0).commandBufferFn pipe0 camD0).snd :=
  empty_object_zero_instance_batch (Object.new mesh0) pipe0 camD0 rfl rfl

/-- C4 counterexample: re-registering the existing object name "b" via
`Group::create_object` leaves the sibling object "a" with its previously
built draw batch still cached (`some cb0`), whereas the group-level
invalidation the code itself defines (`Group::invalidate`) would clear
it — so re-registration does not force the invalidation the claim asserts
at the group level. -/
theorem create_object_no_group_invalidation_cex :
    ((lookupKey (Group.create_object grp4 "b" mesh0).fst.objects "a").map
        Object.command_buffer) = some (some cb0) ∧
    ((lookupKey (Group.invalidate grp4).objects "a").map
        Object.command_buffer) = some none :=
  ⟨rfl, rfl⟩

/-- C4 amended: each create operation silently replaces the prior entry
for the name; `Object::create_instance` also clears the object draw-batch
cache and `Scene::create_group` also clears the scene submission cache,
but `Group::create_object` performs no invalidation at all: the group
keeps no batch-list cache, and the only change is the registry upsert
(sibling objects keep their cached batches). -/
theorem create_replaces_and_invalidates
    (o : Object) (idI : String) (g : Group) (idO : String) (m : Mesh)
    (s : Scene) (idG : String) (vs fs rp vp : Nat) :
    (Object.create_instance o idI).fst
      = { o with instances := upsert o.instances idI Instance.default
                 command_buffer := none } ∧
    (Object.create_instance o idI).snd = some Instance.default ∧
    (Group.create_object g idO m).fst
      = { g with objects := upsert g.objects idO (Object.new m) } ∧
    (Group.create_object g idO m).snd = some (Object.new m) ∧
    (Scene.create_group s idG vs fs rp vp).fst
      = { s with groups := upsert s.groups idG (Group.new vs fs rp vp)
                 command_buffers := none } ∧
    (Scene.create_group s idG vs fs rp vp).snd = some (Group.new vs fs rp vp) := by
  refine ⟨rfl, ?_, rfl, ?_, rfl, ?_⟩ <;>
    simp [Object.create_instance, Object.get_instance, Object.invalidate,
      Group.create_object, Group.get_object, Scene.create_group, Scene.get_group,
      Scene.invalidate, lookupKey_upsert]

/-- C1 counterexample: in `scn0` the object "o" has a built draw batch
(`some cb0`); after `Scene::get_camera` that object-level cache is
cleared, contradicting the claim that object-level caches remain valid
(unchanged) across the call. -/
theorem get_camera_clears_object_cache_cex :
    objBuilt.command_buffer = some cb0 ∧
    ((lookupKey (Scene.get_camera scn0).fst.groups "g").bind
        (fun g' => lookupKey g'.objects "o")).map Object.command_buffer
      = some none :=
  ⟨rfl, rfl⟩

/-- C1 amended: `Scene::get_camera` calls `Scene::invalidate_all`, which
clears the scene submission cache, the camera's uniform subbuffer cache,
and every object-level draw-batch cache in every group. -/
theorem get_camera_invalidates_all (s : Scene) :
    (Scene.get_camera s).fst.command_buffers = none ∧
    (Scene.get_camera s).fst.camera.subbuffer = none ∧
    ∀ ge ∈ (Scene.get_camera s).fst.groups, ∀ oe ∈ ge.2.objects,
      oe.2.command_buffer = none := by
  refine ⟨rfl, rfl, ?_⟩
  intro ge hge oe hoe
  have hge' : ge ∈ s.groups.map (fun e => (e.1, e.2.invalidate)) := hge
  obtain ⟨e, he, rfl⟩ := List.mem_map.1 hge'
  have hoe' : oe ∈ e.2.objects.map (fun x => (x.1, x.2.invalidate)) := hoe
  obtain ⟨x, hx, rfl⟩ := List.mem_map.1 hoe'
  rfl

/-- Witness for C1's amended theorem: applied to `scn0`, whose single
group and object are concrete. -/
theorem get_camera_invalidates_all_witness :
    (("o", Object.invalidate objBuilt) : String × Object).2.command_buffer = none :=
  (get_camera_invalidates_all scn0).2.2 ("g", Group.invalidate grp0)
    (List.mem_singleton.mpr rfl) ("o", Object.invalidate objBuilt)
    (List.mem_singleton.mpr rfl)

/-- C3 counterexample: in `scn0` the submission cache is already valid, so
calling `Scene::command_buffers` twice performs zero rebuilds in total,
not exactly one as the claim states for every scene state. -/
theorem submission_list_zero_rebuilds_cex :
    scn0.command_buffers.isSome = true ∧
    (Scene.commandBuffersFn scn0 [0]).snd.snd
      + (Scene.commandBuffersFn (Scene.commandBuffersFn scn0 [0]).fst [0]).snd.snd = 0 :=
  ⟨rfl, rfl⟩

/-- C3 amended: calling `Scene::command_buffers` twice with no intervening
mutation performs at most one rebuild in total — exactly one when the
submission cache was stale beforehand — and the second call is always a
pure cache hit: it returns the already-built list, rebuilds nothing, and
leaves the scene state untouched. -/
theorem submission_list_second_call_pure_hit (s : Scene) (fbs : List Nat) :
    (Scene.commandBuffersFn (Scene.commandBuffersFn s fbs).fst fbs).fst
      = (Scene.commandBuffersFn s fbs).fst ∧
    (Scene.commandBuffersFn (Scene.commandBuffersFn s fbs).fst fbs).snd.fst
      = (Scene.commandBuffersFn s fbs).snd.fst ∧
    (Scene.commandBuffersFn (Scene.commandBuffersFn s fbs).fst fbs).snd.snd = 0 ∧
    (s.command_buffers = none →
      (Scene.commandBuffersFn s fbs).snd.snd
        + (Scene.commandBuffersFn (Scene.commandBuffersFn s fbs).fst fbs).snd.snd = 1) := by
  cases h : s.command_buffers with
  | some v => simp [Scene.commandBuffersFn, h]
  | none => simp [Scene.commandBuffersFn, h]

/-- Witness for C3's amended theorem: a fresh scene has a stale cache, and
two calls perform exactly one rebuild in total. -/
theorem submission_list_second_call_pure_hit_witness :
    (Scene.commandBuffersFn Scene.new [0]).snd.snd
      + (Scene.commandBuffersFn (Scene.commandBuffersFn Scene.new [0]).fst [0]).snd.snd
      = 1 :=
  (submission_list_second_call_pure_hit Scene.new [0]).2.2.2 rfl

/-- Fixture: the mutator of C6, setting position (1,2,3), angles (0,0,0)
and scale 2. -/
def setC6 : Instance → Instance :=
  fun j => { j with position := ⟨1, 2, 3⟩, angle := ⟨0, 0, 0⟩, scale := 2 }

/-- C6: after `Instance::update` the baked matrix is the fixed-order
composition translation * rotation-X * rotation-Y * rotation-Z * uniform
scale of the updated fields; for a mutator that sets position (1,2,3),
angles (0,0,0) and scale 2, the matrix sends the origin point to (1,2,3)
and each unit basis vector (a direction, w = 0) to itself scaled by 2,
i.e. scaled before translation. The trig functions are abstract subject to
cos 0 = 1 and sin 0 = 0. -/
theorem instance_update_model_matrix (cosf sinf : ℚ → ℚ)
    (hc : cosf 0 = 1) (hs : sinf 0 = 0) (f : Instance → Instance) (i : Instance)
    (hp : (f i).position = ⟨1, 2, 3⟩) (ha : (f i).angle = ⟨0, 0, 0⟩)
    (hsc : (f i).scale = 2) :
    (Instance.update cosf sinf f i).model.model
      = computeModel cosf sinf (f i).position (f i).angle (f i).scale ∧
    Mat4.mulVec (Instance.update cosf sinf f i).model.model ⟨0, 0, 0, 1⟩ = ⟨1, 2, 3, 1⟩ ∧
    Mat4.mulVec (Instance.update cosf sinf f i).model.model ⟨1, 0, 0, 0⟩ = ⟨2, 0, 0, 0⟩ ∧
    Mat4.mulVec (Instance.update cosf sinf f i).model.model ⟨0, 1, 0, 0⟩ = ⟨0, 2, 0, 0⟩ ∧
    Mat4.mulVec (Instance.update cosf sinf f i).model.model ⟨0, 0, 1, 0⟩ = ⟨0, 0, 2, 0⟩ := by
  refine ⟨rfl, ?_, ?_, ?_, ?_⟩ <;>
    simp [Instance.update, computeModel, hp, ha, hsc, hc, hs,
      Mat4.mul, Mat4.mulVec, Mat4.translation, Mat4.rotX, Mat4.rotY, Mat4.rotZ,
      Mat4.scaling, Mat4.identity, Vec4.mk.injEq]

/-- Witness for C6: the update applied to the default instance with
cos = 1, sin = 0 at every point (consistent with angle 0). -/
theorem instance_update_model_matrix_witness :
    Mat4.mulVec (Instance.update (fun _ => 1) (fun _ => 0) setC6 Instance.default).model.model
        ⟨0, 0, 0, 1⟩ = ⟨1, 2, 3, 1⟩ ∧
    Mat4.mulVec (Instance.update (fun _ => 1) (fun _ => 0) setC6 Instance.default).model.model
        ⟨1, 0, 0, 0⟩ = ⟨2, 0, 0, 0⟩ :=
  ⟨(instance_update_model_matrix (fun _ => 1) (fun _ => 0) rfl rfl setC6
      Instance.default rfl rfl rfl).2.1,
   (instance_update_model_matrix (fun _ => 1) (fun _ => 0) rfl rfl setC6
      Instance.default rfl rfl rfl).2.2.1⟩

/-- C10: a freshly constructed default instance already satisfies the
matrix-consistency invariant: its stored model matrix is the identity,
which equals the fixed-order composed transform of its default fields
(position (0,0,0), angles (0,0,0), scale 1), for any trig functions with
cos 0 = 1 and sin 0 = 0. -/
theorem default_instance_identity (cosf sinf : ℚ → ℚ)
    (hc : cosf 0 = 1) (hs : sinf 0 = 0) :
    Instance.default.model.model = Mat4.identity ∧
    computeModel cosf sinf Instance.default.position Instance.default.angle
        Instance.default.scale = Mat4.identity := by
  refine ⟨rfl, ?_⟩
  simp [computeModel, Instance.default, hc, hs, Mat4.mul, Mat4.translation,
    Mat4.rotX, Mat4.rotY, Mat4.rotZ, Mat4.scaling, Mat4.identity, Mat4.mk.injEq]

/-- Witness for C10: instantiated with cos = 1 and sin = 0 at every
point. -/
theorem default_instance_identity_witness :
    computeModel (fun _ => 1) (fun _ => 0) Instance.default.position
        Instance.default.angle Instance.default.scale = Mat4.identity :=
  (default_instance_identity (fun _ => 1) (fun _ => 0) rfl rfl).2

/-- C2 counterexample: a submission (flush) failure other than OutOfDate
does not abort the process: at `EngineState.init 3` with a successful
acquire of target 0 and a flush error, the tick completes (`some`) with no
fence recorded and the loop keeps running, contradicting the claim that
every other backend failure during submission is fatal. -/
theorem submission_error_not_fatal_cex :
    tick (EngineState.init 3)
      { recreate := RecreateResult.ok, acquire := AcquireResult.ok 0 false
        execute := ExecuteResult.ok, flush := FlushResult.otherError }
      = some (EngineState.init 3) ∧
    (EngineState.init 3).fences.getD 0 (some true) = none :=
  ⟨rfl, rfl⟩

/-- C2 amended: out-of-date conditions are recoverable — acquire
OutOfDate skips the tick and marks resize-pending, flush OutOfDate marks
resize-pending and stores no fence; an unsupported extent on swapchain
recreation skips the tick; any *acquisition* failure other than
OutOfDate aborts the process; but a *submission* (flush) failure other
than OutOfDate is only printed: the loop continues with the target's
fence slot emptied and no resize is requested. -/
theorem frame_loop_failure_policy (s : EngineState) (inp : TickInput)
    (hw : s.windowResized = false) (hr : s.recreateSwapchain = false) :
    (inp.acquire = AcquireResult.outOfDate →
      tick s inp = some { s with recreateSwapchain := true }) ∧
    (inp.acquire = AcquireResult.otherError → tick s inp = none) ∧
    (inp.recreate = RecreateResult.extentNotSupported →
      tick { s with windowResized := true } inp
        = some { s with windowResized := true, recreateSwapchain := false }) ∧
    (∀ i, inp.acquire = AcquireResult.ok i false → i < s.fences.length →
      inp.execute = ExecuteResult.ok →
      (inp.flush = FlushResult.outOfDate →
        tick s inp = some { s with recreateSwapchain := true
                                   fences := s.fences.set i none
                                   previousFenceI := i }) ∧
      (inp.flush = FlushResult.otherError →
        tick s inp = some { s with fences := s.fences.set i none
                                   previousFenceI := i })) := by
  refine ⟨?_, ?_, ?_, ?_⟩
  · intro h; simp [tick, tickAcquire, hw, hr, h]
  · intro h; simp [tick, tickAcquire, hw, hr, h]
  · intro h; simp [tick, h]
  · intro i hacq hlt hexe
    constructor <;> intro hfl <;>
      simp [tick, tickAcquire, hw, hr, hacq, hexe, hfl, hlt, List.set_set]

/-- Witness for C2's amended theorem: flush OutOfDate on target 1 of a
3-target loop marks resize-pending and empties the slot. -/
theorem frame_loop_failure_policy_witness :
    tick (EngineState.init 3)
      { recreate := RecreateResult.ok, acquire := AcquireResult.ok 1 false
        execute := ExecuteResult.ok, flush := FlushResult.outOfDate }
      = some { EngineState.init 3 with
               recreateSwapchain := true,
               fences := (EngineState.init 3).fences.set 1 none,
               previousFenceI := 1 } :=
  ((frame_loop_failure_policy (EngineState.init 3)
      { recreate := RecreateResult.ok, acquire := AcquireResult.ok 1 false
        execute := ExecuteResult.ok, flush := FlushResult.outOfDate }
      rfl rfl).2.2.2 1 rfl (by decide) rfl).1 rfl

/-- The acquire/submit part of a tick never changes the number of fence
slots or the target count. -/
theorem tickAcquire_preserves_slots (s : EngineState) (inp : TickInput)
    (s' : EngineState) (h : tickAcquire s inp = some s') :
    s'.fences.length = s.fences.length ∧ s'.imageCount = s.imageCount := by
  simp only [tickAcquire] at h
  repeat' split at h
  all_goals first
    | exact Option.noConfusion h
    | (obtain rfl := Option.some.inj h; simp [List.length_set])

/-- A whole tick never changes the number of fence slots or the target
count (the swapchain is recreated with its previous `create_info`, and
`fences` is never resized). -/
theorem tick_preserves_slots (s : EngineState) (inp : TickInput)
    (s' : EngineState) (h : tick s inp = some s') :
    s'.fences.length = s.fences.length ∧ s'.imageCount = s.imageCount := by
  simp only [tick] at h
  split at h
  · split at h
    · obtain rfl := Option.some.inj h
      exact ⟨rfl, rfl⟩
    · exact Option.noConfusion h
    · split at h <;>
        { have hp := tickAcquire_preserves_slots _ inp s' h
          exact ⟨hp.1, hp.2⟩ }
  · have hp := tickAcquire_preserves_slots _ inp s' h
    exact ⟨hp.1, hp.2⟩

/-- At most `fences.length` slots can hold an unresolved fence. -/
theorem pendingCount_le_slots (s : EngineState) :
    s.pendingCount ≤ s.fences.length :=
  List.length_filter_le _ _

/-- C7: throughout the frame loop started at `EngineState.init n`
(`frames_in_flight = images.len() = n`), every reachable state keeps
exactly `n` fence slots, equal to the presentation-target count, and at no
point do more than `n` distinct target indices hold unresolved completion
fences. -/
theorem bounded_in_flight (n : Nat) (inputs : List TickInput) :
    ∀ st ∈ trace (EngineState.init n) inputs,
      st.fences.length = n ∧ st.imageCount = n ∧ st.pendingCount ≤ n := by
  suffices h : ∀ (l : List TickInput) (s : EngineState),
      s.fences.length = n → s.imageCount = n →
      ∀ st ∈ trace s l,
        st.fences.length = n ∧ st.imageCount = n ∧ st.pendingCount ≤ n by
    exact h inputs _ (by simp [EngineState.init]) rfl
  intro l
  induction l with
  | nil =>
      intro s h1 h2 st hst
      simp only [trace, List.mem_singleton] at hst
      subst hst
      exact ⟨h1, h2, h1 ▸ pendingCount_le_slots _⟩
  | cons inp rest ih =>
      intro s h1 h2 st hst
      simp only [trace, List.mem_cons] at hst
      rcases hst with rfl | hst
      · exact ⟨h1, h2, h1 ▸ pendingCount_le_slots st⟩
      · rcases htick : tick s inp with _ | s1 <;> rw [htick] at hst
        · simp at hst
        · have hp := tick_preserves_slots s inp s1 htick
          exact ih s1 (hp.1.trans h1) (hp.2.trans h2) st hst

/-- Witness for C7: the loop-entry state with 3 targets is in its own
trace and satisfies the bound. -/
theorem bounded_in_flight_witness :
    (EngineState.init 3).fences.length = 3 ∧ (EngineState.init 3).imageCount = 3 ∧
      (EngineState.init 3).pendingCount ≤ 3 :=
  bounded_in_flight 3 [] (EngineState.init 3) (by simp [trace])

end Escher
